import Mathlib

/-!
# Instagram messaging webhook relay (`main.go`)

A shallow embedding of the single source file of the relay: the data-transfer
structures of the inbound webhook payload, the two outbound senders
(`sendCustomerAMessage`, `sendMediaMessage`) and the two route handlers that
`main` registers on `/webhook/messaging-webhook`.

Modelling conventions.

* Go `string` values are Lean `String`s; `fmt.Sprintf` with `%s` verbs and string
  arguments is concatenation.
* A Go `error` is `Option String`: `none` is `nil`, `some msg` is a non-nil error whose
  `Error()` text is `msg`.
* The HTTP client library (`net/http`) is external: its two operations used by the
  senders, `http.NewRequest` and `(*http.Client).Do`, are fields of `HttpClient`.
* The remote platform may answer differently each time it is called, so the handler
  is run against a `Network`: the client behaviour as a function of the outbound
  calls already issued while serving the request.
* The effects recorded for a handler run are the outbound sender invocations, in
  order, and the HTTP response written to the gin context.  Console logging is not
  part of the model.
-/

namespace Webhook

/-! ## Data model (`main.go`, lines 14-50) -/

/-- Payload of an attachment (`type Payload struct`). -/
structure Payload where
  URL : String
  deriving DecidableEq, Repr

/-- Attachment of a message (`type Attachment struct`); `Type_` is the Go field `Type`. -/
structure Attachment where
  Type_ : String
  Payload : Payload
  deriving DecidableEq, Repr

/-- Message of a messaging event (`type Message struct`). -/
structure Message where
  Text : String
  Attachments : List Attachment
  IsEcho : Bool
  deriving DecidableEq, Repr

/-- Sender of a messaging event (`type Sender struct`). -/
structure Sender where
  ID : String
  deriving DecidableEq, Repr

/-- Recipient of a messaging event (`type Recipient struct`). -/
structure Recipient where
  ID : String
  deriving DecidableEq, Repr

/-- One messaging event (`type Messaging struct`). -/
structure Messaging where
  Sender : Sender
  Recipient : Recipient
  Message : Message
  deriving DecidableEq, Repr

/-- One entry of the webhook body (`type Entry struct`). -/
structure Entry where
  Messaging : List Messaging
  deriving DecidableEq, Repr

/-- Top-level inbound payload (`type WebhookBody struct`). -/
structure WebhookBody where
  Object : String
  Entry : List Entry
  deriving DecidableEq, Repr

/-! ## The HTTP client library, as used by the senders -/

/-- An outbound request as built by `http.NewRequest`. -/
structure HttpRequest where
  Method : String
  URL : String
  Body : String
  Header : List (String × String)
  deriving DecidableEq, Repr

/-- The part of `http.Response` the senders read: `StatusCode`, `Status` and the bytes
read from `Body`. -/
structure HttpResponse where
  StatusCode : Int
  Status : String
  Body : String
  deriving DecidableEq, Repr

/-- The two library operations the senders call: `http.NewRequest method url body` and
`client.Do req`.  Each either fails with an error text or yields its value. -/
structure HttpClient where
  NewRequest : String → String → String → Except String HttpRequest
  Do : HttpRequest → Except String HttpResponse

/-- The effect of `req.Header.Set key value`: the header has exactly this value for `key`. -/
def HttpRequest.setHeader (req : HttpRequest) (key value : String) : HttpRequest :=
  { req with Header := (key, value) :: req.Header.filter (fun kv => kv.1 ≠ key) }

/-! ## Outbound senders (`main.go`, lines 58-125) -/

/-- Request body of the text sender (line 59):
`fmt.Sprintf` of the template `{"recipient":{"id":"%s"},"message":{"text":"%s"}}`
with `psid` and `response`. -/
def textReqBody (psid response : String) : String :=
  "\x7b\"recipient\":\x7b\"id\":\"" ++ psid ++ "\"\x7d,\"message\":\x7b\"text\":\"" ++ response ++ "\"\x7d\x7d"

/-- Request URL of the text sender (line 60). -/
def textURL (pageID pageToken : String) : String :=
  "https://graph.facebook.com/v19.0/" ++ pageID ++ "/messages?access_token=" ++ pageToken

/-- Request body of the media sender (lines 90-101): the multi-line raw template with
`recipientID`, `mediaType`, `mediaURL` substituted in this order. -/
def mediaReqBody (recipientID mediaType mediaURL : String) : String :=
  "\x7b\n        \"recipient\":\x7b\"id\":\"" ++ recipientID ++
  "\"\x7d,\n        \"message\":\x7b\n            \"attachment\":\x7b\n                \"type\":\"" ++ mediaType ++
  "\",\n                \"payload\":\x7b\n                    \"url\":\"" ++ mediaURL ++
  "\",\n                    \"is_reusable\":true\n                \x7d\n            \x7d\n        \x7d\n    \x7d"

/-- Request URL of the media sender (line 103). -/
def mediaURLOf (pageAccessToken : String) : String :=
  "https://graph.facebook.com/v19.0/me/messages?access_token=" ++ pageAccessToken

/-- The error built on a non-200 answer (lines 81 and 121):
`fmt.Errorf("HTTP Error: %s, Body: %s", resp.Status, string(body))`. -/
def httpError (status body : String) : String :=
  "HTTP Error: " ++ status ++ ", Body: " ++ body

/-- Text sender `sendCustomerAMessage(pageID, response, pageToken, psid)` (lines 58-85).
Errors of `http.NewRequest` and `client.Do` are returned unchanged. -/
def sendCustomerAMessage (client : HttpClient) (pageID response pageToken psid : String) :
    Option String :=
  let reqBody := textReqBody psid response
  let url := textURL pageID pageToken
  match client.NewRequest "POST" url reqBody with
  | .error err => some err
  | .ok req =>
    let req := req.setHeader "Content-Type" "application/json"
    match client.Do req with
    | .error err => some err
    | .ok resp =>
      let body := resp.Body
      if resp.StatusCode ≠ 200 then some (httpError resp.Status body) else none

/-- Media sender `sendMediaMessage(recipientID, mediaURL, mediaType, pageAccessToken)`
(lines 87-125).  Errors of `http.NewRequest` and `client.Do` are wrapped. -/
def sendMediaMessage (client : HttpClient) (recipientID mediaURL mediaType pageAccessToken : String) :
    Option String :=
  let reqBody := mediaReqBody recipientID mediaType mediaURL
  let url := mediaURLOf pageAccessToken
  match client.NewRequest "POST" url reqBody with
  | .error err => some ("failed to create request: " ++ err)
  | .ok req =>
    let req := req.setHeader "Content-Type" "application/json"
    match client.Do req with
    | .error err => some ("failed to execute request: " ++ err)
    | .ok resp =>
      let body := resp.Body
      if resp.StatusCode ≠ 200 then some (httpError resp.Status body) else none

/-! ## Handler effects -/

/-- An invocation of one of the two senders, with its arguments in source order. -/
inductive Call where
  | text (pageID response pageToken psid : String)
  | media (recipientID mediaURL mediaType pageAccessToken : String)
  deriving DecidableEq, Repr

/-- The client behaviour seen by the next sender invocation, given the outbound calls
issued so far while serving the current request. -/
abbrev Network := List Call → HttpClient

/-- The response written to the gin context: `c.String(code, body)` (no format values, so
the text is written as is), `c.JSON(code, gin.H{...})` with string values, and
`c.AbortWithStatus(code)`, which sends the status with no body. -/
inductive Response where
  | String (code : Nat) (body : String)
  | JSON (code : Nat) (obj : List (String × String))
  | AbortWithStatus (code : Nat)
  deriving DecidableEq, Repr

/-- The constant `http.StatusOK`. -/
abbrev StatusOK : Nat := 200
/-- The constant `http.StatusBadRequest`. -/
abbrev StatusBadRequest : Nat := 400
/-- The constant `http.StatusForbidden`. -/
abbrev StatusForbidden : Nat := 403
/-- The constant `http.StatusNotFound`. -/
abbrev StatusNotFound : Nat := 404

/-- What a run of the POST handler did: the outbound calls in the order issued and the
response written. -/
structure Outcome where
  calls : List Call
  response : Response
  deriving DecidableEq, Repr

/-! ## GET handler (`main.go`, lines 130-141) -/

/-- The GET handler of `/webhook/messaging-webhook`.  `getenv` is `os.Getenv`; `mode`,
`token`, `challenge` are the query values `hub.mode`, `hub.verify_token`,
`hub.challenge`. -/
def getMessagingWebhook (getenv : String → String) (mode token challenge : String) : Response :=
  let verifyToken := getenv "VERIFY_TOKEN"
  if mode = "subscribe" ∧ token = verifyToken then
    Response.String StatusOK challenge
  else
    Response.AbortWithStatus StatusForbidden

/-! ## POST handler (`main.go`, lines 143-196) -/

/-- The loop over `messaging.Message.Attachments` (lines 167-188), started with the calls
issued so far; it returns the calls issued when the loop ends.  The error of
`sendMediaMessage` is only printed. -/
def attachmentLoop (net : Network) (senderID pageAccessToken : String) :
    List Attachment → List Call → List Call
  | [], hist => hist
  | attachment :: rest, hist =>
    let mediaURL := attachment.Payload.URL
    if attachment.Type_ = "image" then
      let mediaURL := if mediaURL = "" then "https://i.gifer.com/Ifph.gif" else mediaURL
      match sendMediaMessage (net hist) senderID mediaURL attachment.Type_ pageAccessToken with
      | some _ =>
        attachmentLoop net senderID pageAccessToken rest
          (hist ++ [Call.media senderID mediaURL attachment.Type_ pageAccessToken])
      | none =>
        attachmentLoop net senderID pageAccessToken rest
          (hist ++ [Call.media senderID mediaURL attachment.Type_ pageAccessToken])
    else if attachment.Type_ = "video" ∨ attachment.Type_ = "file" ∨ attachment.Type_ = "audio" then
      if mediaURL = "" then
        attachmentLoop net senderID pageAccessToken rest hist
      else
        match sendMediaMessage (net hist) senderID mediaURL attachment.Type_ pageAccessToken with
        | some _ =>
          attachmentLoop net senderID pageAccessToken rest
            (hist ++ [Call.media senderID mediaURL attachment.Type_ pageAccessToken])
        | none =>
          attachmentLoop net senderID pageAccessToken rest
            (hist ++ [Call.media senderID mediaURL attachment.Type_ pageAccessToken])
    else
      attachmentLoop net senderID pageAccessToken rest hist

/-- The response written when a text send fails (line 163). -/
def failedToSend : Response :=
  Response.JSON StatusOK [("status", "failed to send message")]

/-- One iteration of the loop over `entry.Messaging` (lines 155-188).  The second
component is `some r` when the handler wrote `r` and returned. -/
def messagingStep (net : Network) (pageID pageAccessToken : String) (messaging : Messaging)
    (hist : List Call) : List Call × Option Response :=
  if messaging.Message.IsEcho then
    (hist, none)
  else
    let senderID := messaging.Sender.ID
    if messaging.Message.Text ≠ "" then
      match sendCustomerAMessage (net hist) pageID messaging.Message.Text pageAccessToken senderID with
      | some _ =>
        (hist ++ [Call.text pageID messaging.Message.Text pageAccessToken senderID],
          some failedToSend)
      | none =>
        (attachmentLoop net senderID pageAccessToken messaging.Message.Attachments
          (hist ++ [Call.text pageID messaging.Message.Text pageAccessToken senderID]), none)
    else
      (attachmentLoop net senderID pageAccessToken messaging.Message.Attachments hist, none)

/-- The loop over `entry.Messaging` (line 154). -/
def messagingLoop (net : Network) (pageID pageAccessToken : String) :
    List Messaging → List Call → List Call × Option Response
  | [], hist => (hist, none)
  | messaging :: rest, hist =>
    match messagingStep net pageID pageAccessToken messaging hist with
    | (hist', some r) => (hist', some r)
    | (hist', none) => messagingLoop net pageID pageAccessToken rest hist'

/-- The loop over `body.Entry` (line 153). -/
def entryLoop (net : Network) (pageID pageAccessToken : String) :
    List Entry → List Call → List Call × Option Response
  | [], hist => (hist, none)
  | entry :: rest, hist =>
    match messagingLoop net pageID pageAccessToken entry.Messaging hist with
    | (hist', some r) => (hist', some r)
    | (hist', none) => entryLoop net pageID pageAccessToken rest hist'

/-- The POST handler of `/webhook/messaging-webhook`.  `bind` is the result of
`c.ShouldBindJSON(&body)`: the decoding error or the decoded body. -/
def postMessagingWebhook (getenv : String → String) (net : Network)
    (bind : Except String WebhookBody) : Outcome :=
  match bind with
  | .error err => ⟨[], Response.JSON StatusBadRequest [("error", err)]⟩
  | .ok body =>
    if body.Object = "instagram" then
      let pageID := getenv "PAGE_ID"
      let pageAccessToken := getenv "PAGE_ACCESS_TOKEN"
      match entryLoop net pageID pageAccessToken body.Entry [] with
      | (calls, some r) => ⟨calls, r⟩
      | (calls, none) => ⟨calls, Response.String StatusOK "EVENT_RECEIVED"⟩
    else
      ⟨[], Response.AbortWithStatus StatusNotFound⟩

/-! ## Reference sequence of outbound calls

The sequence the specification describes for a batch in which no text send fails:
entries in order, events in order, for each non-echo event the text call (when the text
is non-empty) followed by the media calls of its sendable attachments. -/

/-- The media URL an attachment is sent with, in the words of the specification: an
image always has one (the placeholder when its payload URL is empty), a video, file or
audio attachment has one when its payload URL is non-empty, any other type has none. -/
def sendableURL (a : Attachment) : Option String :=
  if a.Type_ = "image" then
    some (if a.Payload.URL = "" then "https://i.gifer.com/Ifph.gif" else a.Payload.URL)
  else if a.Type_ = "video" ∨ a.Type_ = "file" ∨ a.Type_ = "audio" then
    if a.Payload.URL = "" then none else some a.Payload.URL
  else
    none

/-- Reference media calls of an attachment list, in attachment order. -/
def refAttachmentCalls (senderID pageAccessToken : String) (attachments : List Attachment) :
    List Call :=
  attachments.filterMap
    (fun a => (sendableURL a).map (fun u => Call.media senderID u a.Type_ pageAccessToken))

/-- Reference calls of one event: nothing for an echo, otherwise the text call when the
text is non-empty, then the media calls. -/
def refEventCalls (pageID pageAccessToken : String) (m : Messaging) : List Call :=
  if m.Message.IsEcho then []
  else
    (if m.Message.Text ≠ "" then [Call.text pageID m.Message.Text pageAccessToken m.Sender.ID]
      else [])
    ++ refAttachmentCalls m.Sender.ID pageAccessToken m.Message.Attachments

/-- Reference calls of a whole body: entry order, then event order. -/
def refCalls (pageID pageAccessToken : String) (body : WebhookBody) : List Call :=
  body.Entry.flatMap (fun e => e.Messaging.flatMap (refEventCalls pageID pageAccessToken))

/-! ## Results of the calls of a run -/

/-- Whether call `c`, issued after the calls `hist`, is a text send that returns an error. -/
def textSendFails (net : Network) (hist : List Call) : Call → Bool
  | Call.text pageID response pageToken psid =>
    (sendCustomerAMessage (net hist) pageID response pageToken psid).isSome
  | Call.media _ _ _ _ => false

/-- Whether the call at position `i` of the sequence `calls` is a text send that returns an
error when issued after the calls before it. -/
def textSendFailsAt (net : Network) (calls : List Call) (i : Nat) : Bool :=
  match calls[i]? with
  | some c => textSendFails net (calls.take i) c
  | none => false

/-- Whether call `c`, issued after the calls `hist`, is a media send that returns an error. -/
def mediaSendFails (net : Network) (hist : List Call) : Call → Bool
  | Call.text _ _ _ _ => false
  | Call.media recipientID mediaURL mediaType pageAccessToken =>
    (sendMediaMessage (net hist) recipientID mediaURL mediaType pageAccessToken).isSome

/-- Issuing a planned list of calls in order after `hist`, stopping right after the first
text send that returns an error; the flag tells whether that happened. -/
def issue (net : Network) : List Call → List Call → List Call × Bool
  | [], hist => (hist, false)
  | c :: rest, hist =>
    if textSendFails net hist c then (hist ++ [c], true) else issue net rest (hist ++ [c])

/-- The handler state that corresponds to a result of `issue`. -/
def issued (r : List Call × Bool) : List Call × Option Response :=
  (r.1, if r.2 then some failedToSend else none)

/-- The body with every echo event removed from every entry. -/
def removeEchoes (body : WebhookBody) : WebhookBody :=
  ⟨body.Object,
    body.Entry.map (fun e => ⟨e.Messaging.filter (fun m => !m.Message.IsEcho)⟩)⟩

/-- The calls planned before an attachment is reached: those of the earlier entries
`es₁`, of the earlier events `ms₁` of its entry, the text call of its own (non-echo) event
when the text is non-empty, and the media calls of the attachments `as₁` before it. -/
def callsBefore (pageID pageAccessToken : String) (es₁ : List Entry) (ms₁ : List Messaging)
    (sender : Sender) (text : String) (as₁ : List Attachment) : List Call :=
  es₁.flatMap (fun e => e.Messaging.flatMap (refEventCalls pageID pageAccessToken))
  ++ ms₁.flatMap (refEventCalls pageID pageAccessToken)
  ++ (if text ≠ "" then [Call.text pageID text pageAccessToken sender.ID] else [])
  ++ refAttachmentCalls sender.ID pageAccessToken as₁

/-! ## Sample inputs -/


/-- A client whose requests are always built and always answered `200 OK`. -/
def okClient : HttpClient :=
  { NewRequest := fun method url body => .ok ⟨method, url, body, []⟩,
    Do := fun _ => .ok ⟨200, "200 OK", "ok"⟩ }

/-- A client whose requests are always built and always answered `400 Bad Request`. -/
def rejectingClient : HttpClient :=
  { NewRequest := fun method url body => .ok ⟨method, url, body, []⟩,
    Do := fun _ => .ok ⟨400, "400 Bad Request", "bad"⟩ }

/-- A client that answers `201 Created`, a 2xx status other than 200. -/
def createdClient : HttpClient :=
  { NewRequest := fun method url body => .ok ⟨method, url, body, []⟩,
    Do := fun _ => .ok ⟨201, "201 Created", "made"⟩ }

/-- A sample process environment. -/
def sampleEnv : String → String := fun key =>
  if key = "PAGE_ID" then "page-1"
  else if key = "PAGE_ACCESS_TOKEN" then "tok-1"
  else if key = "VERIFY_TOKEN" then "secret-1"
  else ""

/-- A network on which every call succeeds. -/
def okNet : Network := fun _ => okClient

/-- A network on which only the first call of a request is rejected. -/
def firstCallRejectedNet : Network := fun hist =>
  if hist.length = 0 then rejectingClient else okClient

/-- A network on which only the second call of a request is rejected. -/
def secondCallRejectedNet : Network := fun hist =>
  if hist.length = 1 then rejectingClient else okClient

/-- A network on which only the sixth call of a request is rejected. -/
def sixthCallRejectedNet : Network := fun hist =>
  if hist.length = 5 then rejectingClient else okClient

/-- A sample event: text with an image lacking a URL, a video lacking a URL, a sticker and
an audio file. -/
def sampleEvent : Messaging :=
  ⟨⟨"user-1"⟩, ⟨"page-1"⟩,
    ⟨"hello", [⟨"image", ⟨""⟩⟩, ⟨"video", ⟨""⟩⟩, ⟨"sticker", ⟨"s.png"⟩⟩, ⟨"audio", ⟨"a.mp3"⟩⟩],
      false⟩⟩

/-- A sample batch: the sample event, an echo, and a plain text event. -/
def sampleBody : WebhookBody :=
  ⟨"instagram",
    [⟨[sampleEvent, ⟨⟨"page-1"⟩, ⟨"user-1"⟩, ⟨"echoed", [⟨"image", ⟨"e.png"⟩⟩], true⟩⟩]⟩,
     ⟨[⟨⟨"user-2"⟩, ⟨"page-1"⟩, ⟨"bye", [], false⟩⟩]⟩]⟩

/-- A batch of one non-echo event carrying only the text `hello`. -/
def helloBody : WebhookBody :=
  ⟨"instagram", [⟨[⟨⟨"user-1"⟩, ⟨"page-1"⟩, ⟨"hello", [], false⟩⟩]⟩]⟩

/-- A message text that closes the `text` string of the template and opens a new one. -/
def injectedText : String := "2\"\x7d,\"message\":\x7b\"text\":\"3"

/-- A recipient id that closes the `id` string of the template and opens a `text` one. -/
def injectedRecipient : String := "1\"\x7d,\"message\":\x7b\"text\":\"2"

/-! ## Loop lemmas -/

theorem refAttachmentCalls_cons (senderID tok : String) (a : Attachment)
    (rest : List Attachment) :
    refAttachmentCalls senderID tok (a :: rest)
      = (match sendableURL a with
          | some u => [Call.media senderID u a.Type_ tok]
          | none => []) ++ refAttachmentCalls senderID tok rest := by
  unfold refAttachmentCalls
  cases h : sendableURL a <;> simp [List.filterMap_cons, h]

theorem attachmentLoop_eq (net : Network) (senderID tok : String) (as : List Attachment) :
    ∀ hist, attachmentLoop net senderID tok as hist
      = hist ++ refAttachmentCalls senderID tok as := by
  induction as with
  | nil => intro hist; simp [attachmentLoop, refAttachmentCalls]
  | cons a rest ih =>
    intro hist
    rw [refAttachmentCalls_cons]
    unfold attachmentLoop
    by_cases h1 : a.Type_ = "image"
    · simp only [h1, if_true, sendableURL]
      split <;> simp [ih]
    · simp only [h1, if_false, sendableURL]
      by_cases h2 : a.Type_ = "video" ∨ a.Type_ = "file" ∨ a.Type_ = "audio"
      · simp only [h2, if_true]
        by_cases h3 : a.Payload.URL = ""
        · simp [h3, ih]
        · simp only [h3, if_false]
          split <;> simp [ih]
      · simp [h2, ih]

theorem issue_append (net : Network) (xs ys : List Call) :
    ∀ hist, issue net (xs ++ ys) hist
      = if (issue net xs hist).2 then issue net xs hist
        else issue net ys (issue net xs hist).1 := by
  induction xs with
  | nil => intro hist; simp [issue]
  | cons c rest ih =>
    intro hist
    simp only [List.cons_append, issue]
    by_cases h : textSendFails net hist c
    · simp [h]
    · simp [h, ih]

theorem issue_refAttachmentCalls (net : Network) (senderID tok : String)
    (as : List Attachment) :
    ∀ hist, issue net (refAttachmentCalls senderID tok as) hist
      = (hist ++ refAttachmentCalls senderID tok as, false) := by
  induction as with
  | nil => intro hist; simp [issue, refAttachmentCalls]
  | cons a rest ih =>
    intro hist
    rw [refAttachmentCalls_cons]
    cases hs : sendableURL a with
    | none => simpa using ih hist
    | some u => simp [issue, textSendFails, ih]

theorem messagingStep_eq (net : Network) (pageID tok : String) (m : Messaging)
    (hist : List Call) :
    messagingStep net pageID tok m hist
      = issued (issue net (refEventCalls pageID tok m) hist) := by
  unfold messagingStep refEventCalls
  by_cases he : m.Message.IsEcho = true
  · simp [he, issue, issued]
  · by_cases ht : m.Message.Text = ""
    · simp [he, ht, attachmentLoop_eq, issue_refAttachmentCalls, issued]
    · simp only [he, ht, if_false, ne_eq, not_false_eq_true, if_true, List.singleton_append,
        issue, textSendFails, Bool.false_eq_true]
      split
      · next e hs => simp [hs, issued]
      · next hs => simp [hs, attachmentLoop_eq, issue_refAttachmentCalls, issued]

theorem messagingLoop_eq (net : Network) (pageID tok : String) (ms : List Messaging) :
    ∀ hist, messagingLoop net pageID tok ms hist
      = issued (issue net (ms.flatMap (refEventCalls pageID tok)) hist) := by
  induction ms with
  | nil => intro hist; simp [messagingLoop, issue, issued]
  | cons m rest ih =>
    intro hist
    simp only [messagingLoop, List.flatMap_cons, issue_append, messagingStep_eq]
    cases hr : issue net (refEventCalls pageID tok m) hist with
    | mk h b => cases b <;> simp [issued, ih]

theorem entryLoop_eq (net : Network) (pageID tok : String) (es : List Entry) :
    ∀ hist, entryLoop net pageID tok es hist
      = issued (issue net
          (es.flatMap (fun e => e.Messaging.flatMap (refEventCalls pageID tok))) hist) := by
  induction es with
  | nil => intro hist; simp [entryLoop, issue, issued]
  | cons e rest ih =>
    intro hist
    simp only [entryLoop, List.flatMap_cons, issue_append, messagingLoop_eq]
    cases hr : issue net (e.Messaging.flatMap (refEventCalls pageID tok)) hist with
    | mk h b => cases b <;> simp [issued, ih]

theorem issued_eta (r : List Call × Bool) :
    (match issued r with
      | (calls, some resp) => (⟨calls, resp⟩ : Outcome)
      | (calls, none) => ⟨calls, Response.String StatusOK "EVENT_RECEIVED"⟩)
      = ⟨r.1, if r.2 then failedToSend else Response.String StatusOK "EVENT_RECEIVED"⟩ := by
  obtain ⟨h, b⟩ := r
  cases b <;> simp [issued]

theorem postMessagingWebhook_instagram (getenv : String → String) (net : Network)
    (body : WebhookBody) (hobj : body.Object = "instagram") :
    postMessagingWebhook getenv net (.ok body)
      = ⟨(issue net (refCalls (getenv "PAGE_ID") (getenv "PAGE_ACCESS_TOKEN") body) []).1,
          if (issue net (refCalls (getenv "PAGE_ID") (getenv "PAGE_ACCESS_TOKEN") body) []).2
          then failedToSend else Response.String StatusOK "EVENT_RECEIVED"⟩ := by
  simp only [postMessagingWebhook, hobj, if_true, entryLoop_eq, refCalls]
  exact issued_eta _

/-! ## Properties of `issue` -/

theorem textSendFailsAt_length (net : Network) (hist rest : List Call) (c : Call) :
    textSendFailsAt net (hist ++ c :: rest) hist.length = textSendFails net hist c := by
  have hget : (hist ++ c :: rest)[hist.length]? = some c := by
    rw [List.getElem?_append_right (le_refl _)]
    simp
  have htake : (hist ++ c :: rest).take hist.length = hist := List.take_left _ _
  simp only [textSendFailsAt, hget, htake]

theorem textSendFailsAt_lt (net : Network) (calls : List Call) (i : Nat)
    (h : textSendFailsAt net calls i = true) : i < calls.length := by
  by_contra hlt
  have hnone : calls[i]? = none := List.getElem?_eq_none (Nat.le_of_not_lt hlt)
  simp [textSendFailsAt, hnone] at h

theorem issue_extends (net : Network) (cs : List Call) :
    ∀ hist, ∃ out, (issue net cs hist).1 = hist ++ out := by
  induction cs with
  | nil => intro hist; exact ⟨[], by simp [issue]⟩
  | cons c rest ih =>
    intro hist
    by_cases hf : textSendFails net hist c = true
    · exact ⟨[c], by simp [issue, hf]⟩
    · obtain ⟨out, ho⟩ := ih (hist ++ [c])
      exact ⟨c :: out, by simp [issue, hf, ho]⟩

theorem issue_fail_last (net : Network) (cs : List Call) :
    ∀ hist i, hist.length ≤ i → textSendFailsAt net (issue net cs hist).1 i = true →
      (issue net cs hist).1.length = i + 1 ∧ (issue net cs hist).2 = true := by
  induction cs with
  | nil =>
    intro hist i hi hfail
    have := textSendFailsAt_lt net _ i hfail
    simp [issue] at this
    omega
  | cons c rest ih =>
    intro hist i hi hfail
    by_cases hf : textSendFails net hist c = true
    · have hlt := textSendFailsAt_lt net _ i hfail
      simp only [issue, hf, if_true, List.length_append, List.length_singleton] at hlt ⊢
      exact ⟨by omega, trivial⟩
    · obtain ⟨out, ho⟩ := issue_extends net rest (hist ++ [c])
      have hstep : issue net (c :: rest) hist = issue net rest (hist ++ [c]) := by
        simp [issue, hf]
      rw [hstep] at hfail ⊢
      rcases Nat.eq_or_lt_of_le hi with heq | hlt
      · exfalso
        rw [ho, List.append_assoc, List.singleton_append, ← heq,
          textSendFailsAt_length] at hfail
        exact hf hfail
      · exact ih (hist ++ [c]) i (by simp; omega) hfail

theorem issue_all_ok (net : Network) (cs : List Call) :
    ∀ hist, (∀ i, hist.length ≤ i → i < (issue net cs hist).1.length →
        textSendFailsAt net (issue net cs hist).1 i = false) →
      issue net cs hist = (hist ++ cs, false) := by
  induction cs with
  | nil => intro hist _; simp [issue]
  | cons c rest ih =>
    intro hist hall
    by_cases hf : textSendFails net hist c = true
    · exfalso
      have h := hall hist.length (le_refl _) (by simp [issue, hf])
      simp only [issue, hf, if_true] at h
      rw [textSendFailsAt_length, hf] at h
      exact Bool.noConfusion h
    · have hstep : issue net (c :: rest) hist = issue net rest (hist ++ [c]) := by
        simp [issue, hf]
      rw [hstep] at hall ⊢
      rw [ih (hist ++ [c]) (fun i hi hlt => hall i (by simp at hi; omega) hlt)]
      simp

theorem issue_congr (net₁ net₂ : Network) (cs : List Call) :
    ∀ hist, (∀ i, hist.length ≤ i → i < (issue net₁ cs hist).1.length →
        textSendFailsAt net₁ (issue net₁ cs hist).1 i
          = textSendFailsAt net₂ (issue net₁ cs hist).1 i) →
      issue net₁ cs hist = issue net₂ cs hist := by
  induction cs with
  | nil => intro hist _; simp [issue]
  | cons c rest ih =>
    intro hist hagree
    obtain ⟨out, ho⟩ := issue_extends net₁ (c :: rest) hist
    have hout : ∃ out', (issue net₁ (c :: rest) hist).1 = hist ++ c :: out' := by
      by_cases hf : textSendFails net₁ hist c = true
      · exact ⟨[], by simp [issue, hf]⟩
      · obtain ⟨o, ho⟩ := issue_extends net₁ rest (hist ++ [c])
        exact ⟨o, by simp [issue, hf, ho]⟩
    obtain ⟨out', ho'⟩ := hout
    have hsame : textSendFails net₁ hist c = textSendFails net₂ hist c := by
      have h := hagree hist.length (le_refl _) (by rw [ho']; simp)
      rw [ho', textSendFailsAt_length, textSendFailsAt_length] at h
      exact h
    by_cases hf : textSendFails net₁ hist c = true
    · have hf₂ : textSendFails net₂ hist c = true := hsame ▸ hf
      simp [issue, hf, hf₂]
    · have hf₂ : ¬ textSendFails net₂ hist c = true := hsame ▸ hf
      have hstep : issue net₁ (c :: rest) hist = issue net₁ rest (hist ++ [c]) := by
        simp [issue, hf]
      have hstep₂ : issue net₂ (c :: rest) hist = issue net₂ rest (hist ++ [c]) := by
        simp [issue, hf₂]
      rw [hstep] at hagree
      rw [hstep, hstep₂]
      exact ih (hist ++ [c]) (fun i hi hlt => hagree i (by simp at hi; omega) hlt)

/-! ## Reference calls under edits of the body -/

theorem refEventCalls_filter_echo (pageID tok : String) (ms : List Messaging) :
    (ms.filter (fun m => !m.Message.IsEcho)).flatMap (refEventCalls pageID tok)
      = ms.flatMap (refEventCalls pageID tok) := by
  induction ms with
  | nil => rfl
  | cons m rest ih =>
    by_cases he : m.Message.IsEcho = true
    · simp [List.filter_cons, he, refEventCalls, ih]
    · simp [List.filter_cons, he, ih]

theorem refCalls_removeEchoes (pageID tok : String) (body : WebhookBody) :
    refCalls pageID tok (removeEchoes body) = refCalls pageID tok body := by
  obtain ⟨obj, es⟩ := body
  simp only [refCalls, removeEchoes]
  induction es with
  | nil => rfl
  | cons e rest ih => simp [List.flatMap_cons, refEventCalls_filter_echo, ih]

theorem refAttachmentCalls_append (senderID tok : String) (as₁ as₂ : List Attachment) :
    refAttachmentCalls senderID tok (as₁ ++ as₂)
      = refAttachmentCalls senderID tok as₁ ++ refAttachmentCalls senderID tok as₂ := by
  simp [refAttachmentCalls, List.filterMap_append]

theorem refAttachmentCalls_skip (senderID tok : String) (as₁ as₂ : List Attachment)
    (a : Attachment) (hskip : sendableURL a = none) :
    refAttachmentCalls senderID tok (as₁ ++ a :: as₂)
      = refAttachmentCalls senderID tok (as₁ ++ as₂) := by
  rw [refAttachmentCalls_append, refAttachmentCalls_append, refAttachmentCalls_cons, hskip]
  simp

theorem sendableURL_skipped (a : Attachment)
    (hskip : ((a.Type_ = "video" ∨ a.Type_ = "file" ∨ a.Type_ = "audio") ∧ a.Payload.URL = "")
      ∨ (a.Type_ ≠ "image" ∧ a.Type_ ≠ "video" ∧ a.Type_ ≠ "file" ∧ a.Type_ ≠ "audio")) :
    sendableURL a = none := by
  unfold sendableURL
  rcases hskip with ⟨hty, hurl⟩ | ⟨h1, h2, h3, h4⟩
  · have hne : a.Type_ ≠ "image" := by
      rcases hty with h | h | h <;> rw [h] <;> decide
    simp [hne, hty, hurl]
  · simp [h1, h2, h3, h4]

/-! ## Runs that reach a given position -/

theorem issue_reaches (net : Network) (xs ys : List Call) :
    ∀ hist, (∀ i, hist.length ≤ i → i < hist.length + xs.length →
        textSendFailsAt net (issue net (xs ++ ys) hist).1 i = false) →
      issue net (xs ++ ys) hist = issue net ys (hist ++ xs) := by
  induction xs with
  | nil => intro hist _; simp
  | cons c rest ih =>
    intro hist hall
    by_cases hf : textSendFails net hist c = true
    · exfalso
      have h := hall hist.length (le_refl _) (by simp)
      simp only [List.cons_append, issue, hf, if_true] at h
      rw [textSendFailsAt_length, hf] at h
      exact Bool.noConfusion h
    · have hstep : issue net (c :: rest ++ ys) hist = issue net (rest ++ ys) (hist ++ [c]) := by
        simp [issue, hf]
      rw [hstep] at hall ⊢
      rw [ih (hist ++ [c]) (fun i hi hlt => hall i (by simp at hi; omega)
        (by simp at hlt ⊢; omega))]
      simp

theorem issue_out_of_plan (net : Network) (cs : List Call) :
    ∀ hist, ∃ out dropped, (issue net cs hist).1 = hist ++ out ∧ out ++ dropped = cs := by
  induction cs with
  | nil => intro hist; exact ⟨[], [], by simp [issue], rfl⟩
  | cons c rest ih =>
    intro hist
    by_cases hf : textSendFails net hist c = true
    · exact ⟨[c], rest, by simp [issue, hf], rfl⟩
    · obtain ⟨out, dropped, ho, hd⟩ := ih (hist ++ [c])
      exact ⟨c :: out, dropped, by simp [issue, hf, ho], by simp [hd]⟩

theorem refCalls_at_image (pageID tok object : String) (es₁ es₂ : List Entry)
    (ms₁ ms₂ : List Messaging) (sender : Sender) (recipient : Recipient) (text : String)
    (as₁ as₂ : List Attachment) (a : Attachment) (himg : a.Type_ = "image") :
    refCalls pageID tok ⟨object,
        es₁ ++ ⟨ms₁ ++ ⟨sender, recipient, ⟨text, as₁ ++ a :: as₂, false⟩⟩ :: ms₂⟩ :: es₂⟩
      = callsBefore pageID tok es₁ ms₁ sender text as₁
        ++ ([Call.media sender.ID
              (if a.Payload.URL = "" then "https://i.gifer.com/Ifph.gif" else a.Payload.URL)
              "image" tok]
          ++ (refAttachmentCalls sender.ID tok as₂
            ++ refCalls pageID tok ⟨object, ⟨ms₂⟩ :: es₂⟩)) := by
  simp only [refCalls, callsBefore, List.flatMap_append, List.flatMap_cons, refEventCalls,
    refAttachmentCalls_append, refAttachmentCalls_cons, sendableURL, himg, if_true,
    List.append_assoc, Bool.false_eq_true, if_false]

/-! ## GET handler -/

/-- C6: the GET verification handler answers 200 with exactly the challenge as body if and
only if the mode is `subscribe` and the token equals the configured `VERIFY_TOKEN`, and
answers 403 with no body if and only if that is not the case. -/
theorem getMessagingWebhook_verification (getenv : String → String)
    (mode token challenge : String) :
    (getMessagingWebhook getenv mode token challenge = Response.String 200 challenge
        ↔ (mode = "subscribe" ∧ token = getenv "VERIFY_TOKEN"))
    ∧ (getMessagingWebhook getenv mode token challenge = Response.AbortWithStatus 403
        ↔ ¬ (mode = "subscribe" ∧ token = getenv "VERIFY_TOKEN")) := by
  unfold getMessagingWebhook
  by_cases h : mode = "subscribe" ∧ token = getenv "VERIFY_TOKEN"
  · simp [h]
  · simp [h]

/-! ## Senders -/

/-- C10: for both senders, once the request was built and executed and a response was
received, an error is returned exactly when the status code is not 200 (so 201 or 204
fail too); that error is built from the response status and body, and status 200 gives
no error. -/
theorem senders_error_iff_not_200 :
    (∀ (client : HttpClient) (pageID response pageToken psid : String)
        (req : HttpRequest) (resp : HttpResponse),
        client.NewRequest "POST" (textURL pageID pageToken) (textReqBody psid response) = .ok req →
        client.Do (req.setHeader "Content-Type" "application/json") = .ok resp →
        ((sendCustomerAMessage client pageID response pageToken psid).isSome = true
            ↔ resp.StatusCode ≠ 200)
        ∧ (resp.StatusCode ≠ 200 →
            sendCustomerAMessage client pageID response pageToken psid
              = some ("HTTP Error: " ++ resp.Status ++ ", Body: " ++ resp.Body))
        ∧ (resp.StatusCode = 200 →
            sendCustomerAMessage client pageID response pageToken psid = none))
    ∧ (∀ (client : HttpClient) (recipientID mediaURL mediaType pageAccessToken : String)
        (req : HttpRequest) (resp : HttpResponse),
        client.NewRequest "POST" (mediaURLOf pageAccessToken)
            (mediaReqBody recipientID mediaType mediaURL) = .ok req →
        client.Do (req.setHeader "Content-Type" "application/json") = .ok resp →
        ((sendMediaMessage client recipientID mediaURL mediaType pageAccessToken).isSome = true
            ↔ resp.StatusCode ≠ 200)
        ∧ (resp.StatusCode ≠ 200 →
            sendMediaMessage client recipientID mediaURL mediaType pageAccessToken
              = some ("HTTP Error: " ++ resp.Status ++ ", Body: " ++ resp.Body))
        ∧ (resp.StatusCode = 200 →
            sendMediaMessage client recipientID mediaURL mediaType pageAccessToken = none)) := by
  constructor
  · intro client pageID response pageToken psid req resp hreq hdo
    by_cases hs : resp.StatusCode = 200
    · simp [sendCustomerAMessage, hreq, hdo, hs]
    · simp [sendCustomerAMessage, hreq, hdo, hs, httpError]
  · intro client recipientID mediaURL mediaType pageAccessToken req resp hreq hdo
    by_cases hs : resp.StatusCode = 200
    · simp [sendMediaMessage, hreq, hdo, hs]
    · simp [sendMediaMessage, hreq, hdo, hs, httpError]

/-- C10 at a concrete input: a `201 Created` answer makes both senders fail with the status
and body in the error. -/
theorem senders_error_iff_not_200_witness :
    sendCustomerAMessage createdClient "page-1" "hello" "tok-1" "user-1"
        = some ("HTTP Error: " ++ "201 Created" ++ ", Body: " ++ "made")
    ∧ sendMediaMessage createdClient "user-1" "a.mp3" "audio" "tok-1"
        = some ("HTTP Error: " ++ "201 Created" ++ ", Body: " ++ "made") :=
  ⟨(senders_error_iff_not_200.1 createdClient "page-1" "hello" "tok-1" "user-1"
      (HttpRequest.mk "POST" (textURL "page-1" "tok-1") (textReqBody "user-1" "hello") [])
      ⟨201, "201 Created", "made"⟩ rfl rfl).2.1 (by decide),
   (senders_error_iff_not_200.2 createdClient "user-1" "a.mp3" "audio" "tok-1"
      (HttpRequest.mk "POST" (mediaURLOf "tok-1") (mediaReqBody "user-1" "audio" "a.mp3") [])
      ⟨201, "201 Created", "made"⟩ rfl rfl).2.1 (by decide)⟩

/-- C9: the body built by `sendCustomerAMessage` is not a JSON encoding of the recipient id
and the text.  A text with double quotes is inserted unescaped, and a text that closes the
string of the template yields the same body as a different recipient and text, so no
decoder recovers both from the body for every input. -/
theorem textReqBody_not_decodable :
    textReqBody "1" "say \"hi\""
        = "\x7b\"recipient\":\x7b\"id\":\"1\"\x7d,\"message\":\x7b\"text\":\"say \"hi\"\"\x7d\x7d"
    ∧ textReqBody "1" injectedText
        = "\x7b\"recipient\":\x7b\"id\":\"1\"\x7d,\"message\":\x7b\"text\":\"2\"\x7d,\"message\":\x7b\"text\":\"3\"\x7d\x7d"
    ∧ textReqBody "1" injectedText = textReqBody injectedRecipient "3"
    ∧ ¬ ∃ decode : String → String × String,
        ∀ psid response, decode (textReqBody psid response) = (psid, response) := by
  refine ⟨by decide, by decide, by decide, ?_⟩
  rintro ⟨decode, hdec⟩
  have h₁ := hdec "1" injectedText
  have h₂ := hdec injectedRecipient "3"
  have heq : textReqBody "1" injectedText = textReqBody injectedRecipient "3" := by decide
  rw [heq, h₂] at h₁
  exact absurd (congrArg Prod.snd h₁) (by decide)

/-! ## POST handler -/

/-- C7: a parsed body whose object is not exactly `instagram` is answered 404 and no
outbound call is issued, whatever its entries. -/
theorem postMessagingWebhook_other_object (getenv : String → String) (net : Network)
    (body : WebhookBody) (hobj : body.Object ≠ "instagram") :
    postMessagingWebhook getenv net (.ok body)
      = ⟨[], Response.AbortWithStatus 404⟩ := by
  simp [postMessagingWebhook, hobj]

/-- C7 at a concrete input: the sample batch relabelled `page`. -/
theorem postMessagingWebhook_other_object_witness :
    (WebhookBody.mk "page" sampleBody.Entry).Object ≠ "instagram"
    ∧ postMessagingWebhook sampleEnv okNet (.ok (WebhookBody.mk "page" sampleBody.Entry))
      = ⟨[], Response.AbortWithStatus 404⟩ :=
  ⟨by decide,
   postMessagingWebhook_other_object sampleEnv okNet (WebhookBody.mk "page" sampleBody.Entry)
     (by decide)⟩

/-- C1: in a run on an instagram body, if the call at position `i` is a text send that
returns an error, then it is the last outbound call of the run (nothing of any kind follows
it) and the response is 200 with the JSON body `status: failed to send message`. -/
theorem text_send_failure_aborts_batch (getenv : String → String) (net : Network)
    (body : WebhookBody) (hobj : body.Object = "instagram") (i : Nat)
    (hfail : textSendFailsAt net (postMessagingWebhook getenv net (.ok body)).calls i = true) :
    (postMessagingWebhook getenv net (.ok body)).calls.length = i + 1
    ∧ (postMessagingWebhook getenv net (.ok body)).response
        = Response.JSON 200 [("status", "failed to send message")] := by
  rw [postMessagingWebhook_instagram getenv net body hobj] at hfail ⊢
  obtain ⟨hlen, hflag⟩ := issue_fail_last net _ [] i (Nat.zero_le _) hfail
  exact ⟨hlen, by simp [hflag, failedToSend]⟩

/-- C1 at a concrete input: the first text send of the sample batch is rejected. -/
theorem text_send_failure_aborts_batch_witness :
    sampleBody.Object = "instagram"
    ∧ textSendFailsAt firstCallRejectedNet
        (postMessagingWebhook sampleEnv firstCallRejectedNet (.ok sampleBody)).calls 0 = true
    ∧ (postMessagingWebhook sampleEnv firstCallRejectedNet (.ok sampleBody)).calls.length = 0 + 1
    ∧ (postMessagingWebhook sampleEnv firstCallRejectedNet (.ok sampleBody)).response
        = Response.JSON 200 [("status", "failed to send message")] :=
  ⟨by decide, by decide,
   text_send_failure_aborts_batch sampleEnv firstCallRejectedNet sampleBody (by decide) 0
     (by decide)⟩

/-- C8: in a run on an instagram body in which every text send succeeds, the response is
200 `EVENT_RECEIVED` and the outbound calls are exactly the reference sequence; for a body
of one non-echo event carrying only the text `hello` that is one text send of `hello` to
the sender id and no media call. -/
theorem all_text_sends_ok_reference_run (getenv : String → String) (net : Network)
    (body : WebhookBody) (hobj : body.Object = "instagram")
    (hall : ∀ i, i < (postMessagingWebhook getenv net (.ok body)).calls.length →
      textSendFailsAt net (postMessagingWebhook getenv net (.ok body)).calls i = false) :
    (postMessagingWebhook getenv net (.ok body)).response
        = Response.String 200 "EVENT_RECEIVED"
    ∧ (postMessagingWebhook getenv net (.ok body)).calls
        = refCalls (getenv "PAGE_ID") (getenv "PAGE_ACCESS_TOKEN") body
    ∧ ∀ sender recipient,
        body.Entry = [⟨[⟨sender, recipient, ⟨"hello", [], false⟩⟩]⟩] →
        (postMessagingWebhook getenv net (.ok body)).calls
          = [Call.text (getenv "PAGE_ID") "hello" (getenv "PAGE_ACCESS_TOKEN") sender.ID] := by
  rw [postMessagingWebhook_instagram getenv net body hobj] at hall ⊢
  have hrun := issue_all_ok net _ [] (fun i _ hlt => hall i hlt)
  simp only [hrun, List.nil_append]
  refine ⟨by simp, trivial, ?_⟩
  intro sender recipient hentry
  simp [refCalls, hentry, refEventCalls, refAttachmentCalls]

/-- C8 at a concrete input: the `hello` batch on a network where every call succeeds. -/
theorem all_text_sends_ok_reference_run_witness :
    helloBody.Object = "instagram"
    ∧ (∀ i, i < (postMessagingWebhook sampleEnv okNet (.ok helloBody)).calls.length →
        textSendFailsAt okNet (postMessagingWebhook sampleEnv okNet (.ok helloBody)).calls i
          = false)
    ∧ (postMessagingWebhook sampleEnv okNet (.ok helloBody)).response
        = Response.String 200 "EVENT_RECEIVED"
    ∧ (postMessagingWebhook sampleEnv okNet (.ok helloBody)).calls
        = [Call.text "page-1" "hello" "tok-1" "user-1"] :=
  ⟨by decide, by decide,
   (all_text_sends_ok_reference_run sampleEnv okNet helloBody (by decide) (by decide)).1,
   (all_text_sends_ok_reference_run sampleEnv okNet helloBody (by decide) (by decide)).2.2
     ⟨"user-1"⟩ ⟨"page-1"⟩ rfl⟩

/-- C2: two runs on the same parsed body whose text sends agree on success or error, on
networks whose media sends may answer in any way, issue the same outbound calls and write
the same response. -/
theorem media_results_do_not_influence_run (getenv : String → String) (net₁ net₂ : Network)
    (body : WebhookBody)
    (hagree : ∀ i, i < (postMessagingWebhook getenv net₁ (.ok body)).calls.length →
      textSendFailsAt net₁ (postMessagingWebhook getenv net₁ (.ok body)).calls i
        = textSendFailsAt net₂ (postMessagingWebhook getenv net₁ (.ok body)).calls i) :
    postMessagingWebhook getenv net₁ (.ok body)
      = postMessagingWebhook getenv net₂ (.ok body) := by
  by_cases hobj : body.Object = "instagram"
  · rw [postMessagingWebhook_instagram getenv net₁ body hobj] at hagree
    rw [postMessagingWebhook_instagram getenv net₁ body hobj,
      postMessagingWebhook_instagram getenv net₂ body hobj,
      issue_congr net₁ net₂ _ [] (fun i _ hlt => hagree i hlt)]
  · simp [postMessagingWebhook, hobj]

/-- C2 at a concrete input: on the sample batch the second call is the media send of the
image; rejecting it changes neither the calls nor the response. -/
theorem media_results_do_not_influence_run_witness :
    (∀ i, i < (postMessagingWebhook sampleEnv okNet (.ok sampleBody)).calls.length →
      textSendFailsAt okNet (postMessagingWebhook sampleEnv okNet (.ok sampleBody)).calls i
        = textSendFailsAt secondCallRejectedNet
            (postMessagingWebhook sampleEnv okNet (.ok sampleBody)).calls i)
    ∧ mediaSendFails okNet [Call.text "page-1" "hello" "tok-1" "user-1"]
        (Call.media "user-1" "https://i.gifer.com/Ifph.gif" "image" "tok-1") = false
    ∧ mediaSendFails secondCallRejectedNet [Call.text "page-1" "hello" "tok-1" "user-1"]
        (Call.media "user-1" "https://i.gifer.com/Ifph.gif" "image" "tok-1") = true
    ∧ postMessagingWebhook sampleEnv okNet (.ok sampleBody)
      = postMessagingWebhook sampleEnv secondCallRejectedNet (.ok sampleBody) :=
  ⟨by decide, by decide, by decide,
   media_results_do_not_influence_run sampleEnv okNet secondCallRejectedNet sampleBody
     (by decide)⟩

/-- C3: an echo event triggers no outbound call: on every network a parsed body and the
same body with all echo events removed give the same outbound calls and the same
response. -/
theorem echo_events_trigger_nothing (getenv : String → String) (net : Network)
    (body : WebhookBody) :
    postMessagingWebhook getenv net (.ok (removeEchoes body))
      = postMessagingWebhook getenv net (.ok body) := by
  by_cases hobj : body.Object = "instagram"
  · have hobj' : (removeEchoes body).Object = "instagram" := hobj
    rw [postMessagingWebhook_instagram getenv net _ hobj',
      postMessagingWebhook_instagram getenv net _ hobj, refCalls_removeEchoes]
  · have hobj' : ¬ (removeEchoes body).Object = "instagram" := hobj
    simp [postMessagingWebhook, hobj, hobj']

/-- C4: an attachment that is a video, file or audio with an empty payload URL, or of a type
other than image, video, file, audio, produces no outbound call and affects nothing else:
with the attachment at any place of any message of any event of any entry, the outbound
calls and the response are those of the body with that attachment deleted. -/
theorem skipped_attachment_changes_nothing (getenv : String → String) (net : Network)
    (object : String) (es₁ es₂ : List Entry) (ms₁ ms₂ : List Messaging)
    (sender : Sender) (recipient : Recipient) (text : String) (isEcho : Bool)
    (as₁ as₂ : List Attachment) (a : Attachment)
    (hskip : ((a.Type_ = "video" ∨ a.Type_ = "file" ∨ a.Type_ = "audio") ∧ a.Payload.URL = "")
      ∨ (a.Type_ ≠ "image" ∧ a.Type_ ≠ "video" ∧ a.Type_ ≠ "file" ∧ a.Type_ ≠ "audio")) :
    postMessagingWebhook getenv net (.ok ⟨object,
        es₁ ++ ⟨ms₁ ++ ⟨sender, recipient, ⟨text, as₁ ++ a :: as₂, isEcho⟩⟩ :: ms₂⟩ :: es₂⟩)
      = postMessagingWebhook getenv net (.ok ⟨object,
        es₁ ++ ⟨ms₁ ++ ⟨sender, recipient, ⟨text, as₁ ++ as₂, isEcho⟩⟩ :: ms₂⟩ :: es₂⟩) := by
  have hnone := sendableURL_skipped a hskip
  by_cases hobj : object = "instagram"
  · rw [postMessagingWebhook_instagram getenv net _ hobj,
      postMessagingWebhook_instagram getenv net _ hobj]
    have href : ∀ pageID tok,
        refCalls pageID tok ⟨object,
          es₁ ++ ⟨ms₁ ++ ⟨sender, recipient, ⟨text, as₁ ++ a :: as₂, isEcho⟩⟩ :: ms₂⟩ :: es₂⟩
        = refCalls pageID tok ⟨object,
          es₁ ++ ⟨ms₁ ++ ⟨sender, recipient, ⟨text, as₁ ++ as₂, isEcho⟩⟩ :: ms₂⟩ :: es₂⟩ := by
      intro pageID tok
      simp only [refCalls, List.flatMap_append, List.flatMap_cons, refEventCalls,
        refAttachmentCalls_skip _ _ as₁ as₂ a hnone]
    rw [href]
  · simp [postMessagingWebhook, hobj]

/-- C4 at a concrete input: deleting the URL-less video of the sample event. -/
theorem skipped_attachment_changes_nothing_witness :
    (((Attachment.mk "video" ⟨""⟩).Type_ = "video" ∨ (Attachment.mk "video" ⟨""⟩).Type_ = "file"
        ∨ (Attachment.mk "video" ⟨""⟩).Type_ = "audio")
      ∧ (Attachment.mk "video" ⟨""⟩).Payload.URL = "")
    ∧ postMessagingWebhook sampleEnv okNet (.ok ⟨"instagram",
        [] ++ ⟨[] ++ ⟨⟨"user-1"⟩, ⟨"page-1"⟩,
          ⟨"hello", [⟨"image", ⟨""⟩⟩] ++ ⟨"video", ⟨""⟩⟩ :: [⟨"audio", ⟨"a.mp3"⟩⟩], false⟩⟩
          :: []⟩ :: []⟩)
      = ⟨[Call.text "page-1" "hello" "tok-1" "user-1",
          Call.media "user-1" "https://i.gifer.com/Ifph.gif" "image" "tok-1",
          Call.media "user-1" "a.mp3" "audio" "tok-1"],
         Response.String 200 "EVENT_RECEIVED"⟩ :=
  ⟨by decide,
   (skipped_attachment_changes_nothing sampleEnv okNet "instagram" [] [] [] []
      ⟨"user-1"⟩ ⟨"page-1"⟩ "hello" false [⟨"image", ⟨""⟩⟩] [⟨"audio", ⟨"a.mp3"⟩⟩]
      ⟨"video", ⟨""⟩⟩ (Or.inl (by decide))).trans (by decide)⟩

/-- C5: in a run of the POST handler on an instagram body, take an attachment of type
image of a non-echo event, at any place.  If the event is processed, that is, no text send
issued before the attachment is reached returns an error, then the outbound calls of the run
are the calls before it, then exactly one media send for it, with the sender id as
recipient, media type image, and as URL the placeholder if the payload URL is empty and the
payload URL itself otherwise, then the media sends of the attachments after it, then calls
of the later events. -/
theorem image_attachment_sent_once (getenv : String → String) (net : Network)
    (es₁ es₂ : List Entry) (ms₁ ms₂ : List Messaging)
    (sender : Sender) (recipient : Recipient) (text : String)
    (as₁ as₂ : List Attachment) (a : Attachment)
    (himg : a.Type_ = "image")
    (hreached : ∀ i,
      i < (callsBefore (getenv "PAGE_ID") (getenv "PAGE_ACCESS_TOKEN")
            es₁ ms₁ sender text as₁).length →
      textSendFailsAt net (postMessagingWebhook getenv net (.ok ⟨"instagram",
        es₁ ++ ⟨ms₁ ++ ⟨sender, recipient, ⟨text, as₁ ++ a :: as₂, false⟩⟩ :: ms₂⟩ :: es₂⟩)).calls
        i = false) :
    ∃ later dropped,
      (postMessagingWebhook getenv net (.ok ⟨"instagram",
        es₁ ++ ⟨ms₁ ++ ⟨sender, recipient, ⟨text, as₁ ++ a :: as₂, false⟩⟩ :: ms₂⟩ :: es₂⟩)).calls
        = callsBefore (getenv "PAGE_ID") (getenv "PAGE_ACCESS_TOKEN") es₁ ms₁ sender text as₁
          ++ Call.media sender.ID
              (if a.Payload.URL = "" then "https://i.gifer.com/Ifph.gif" else a.Payload.URL)
              "image" (getenv "PAGE_ACCESS_TOKEN")
          :: (refAttachmentCalls sender.ID (getenv "PAGE_ACCESS_TOKEN") as₂ ++ later)
      ∧ later ++ dropped
        = refCalls (getenv "PAGE_ID") (getenv "PAGE_ACCESS_TOKEN") ⟨"instagram", ⟨ms₂⟩ :: es₂⟩ := by
  rw [postMessagingWebhook_instagram getenv net _ rfl] at hreached ⊢
  rw [refCalls_at_image _ _ _ es₁ es₂ ms₁ ms₂ sender recipient text as₁ as₂ a himg]
    at hreached ⊢
  have hrun := issue_reaches net _ _ [] (fun i _ hlt => hreached i (by simpa using hlt))
  obtain ⟨out, dropped, ho, hd⟩ := issue_out_of_plan net
    (refCalls (getenv "PAGE_ID") (getenv "PAGE_ACCESS_TOKEN") ⟨"instagram", ⟨ms₂⟩ :: es₂⟩)
    (callsBefore (getenv "PAGE_ID") (getenv "PAGE_ACCESS_TOKEN") es₁ ms₁ sender text as₁
      ++ [Call.media sender.ID
            (if a.Payload.URL = "" then "https://i.gifer.com/Ifph.gif" else a.Payload.URL)
            "image" (getenv "PAGE_ACCESS_TOKEN")]
      ++ refAttachmentCalls sender.ID (getenv "PAGE_ACCESS_TOKEN") as₂)
  refine ⟨out, dropped, ?_, hd⟩
  rw [hrun]
  simp only [List.nil_append, List.singleton_append, issue, textSendFails, Bool.false_eq_true,
    if_false, List.append_eq]
  rw [issue_append, issue_refAttachmentCalls]
  simp only [Bool.false_eq_true, if_false, ho]
  simp

/-- C5 at a concrete input: an image without URL between a video and an audio file, in the
second event of the second entry; in the run the text send of the following event is
rejected. -/
theorem image_attachment_sent_once_witness :
    (Attachment.mk "image" ⟨""⟩).Type_ = "image"
    ∧ (∀ i,
      i < (callsBefore (sampleEnv "PAGE_ID") (sampleEnv "PAGE_ACCESS_TOKEN")
            [⟨[⟨⟨"user-0"⟩, ⟨"page-1"⟩, ⟨"hi", [], false⟩⟩]⟩]
            [⟨⟨"page-1"⟩, ⟨"user-1"⟩, ⟨"echoed", [], true⟩⟩]
            ⟨"user-1"⟩ "pics" [⟨"video", ⟨"v.mp4"⟩⟩]).length →
      textSendFailsAt sixthCallRejectedNet (postMessagingWebhook sampleEnv sixthCallRejectedNet
        (.ok ⟨"instagram",
          [⟨[⟨⟨"user-0"⟩, ⟨"page-1"⟩, ⟨"hi", [], false⟩⟩]⟩]
          ++ ⟨[⟨⟨"page-1"⟩, ⟨"user-1"⟩, ⟨"echoed", [], true⟩⟩]
              ++ ⟨⟨"user-1"⟩, ⟨"page-1"⟩,
                  ⟨"pics", [⟨"video", ⟨"v.mp4"⟩⟩] ++ ⟨"image", ⟨""⟩⟩ :: [⟨"audio", ⟨"a.mp3"⟩⟩],
                    false⟩⟩
              :: [⟨⟨"user-2"⟩, ⟨"page-1"⟩, ⟨"bye", [⟨"image", ⟨"b.png"⟩⟩], false⟩⟩]⟩
          :: [⟨[⟨⟨"user-3"⟩, ⟨"page-1"⟩, ⟨"late", [], false⟩⟩]⟩]⟩)).calls i = false)
    ∧ (postMessagingWebhook sampleEnv sixthCallRejectedNet
        (.ok ⟨"instagram",
          [⟨[⟨⟨"user-0"⟩, ⟨"page-1"⟩, ⟨"hi", [], false⟩⟩]⟩]
          ++ ⟨[⟨⟨"page-1"⟩, ⟨"user-1"⟩, ⟨"echoed", [], true⟩⟩]
              ++ ⟨⟨"user-1"⟩, ⟨"page-1"⟩,
                  ⟨"pics", [⟨"video", ⟨"v.mp4"⟩⟩] ++ ⟨"image", ⟨""⟩⟩ :: [⟨"audio", ⟨"a.mp3"⟩⟩],
                    false⟩⟩
              :: [⟨⟨"user-2"⟩, ⟨"page-1"⟩, ⟨"bye", [⟨"image", ⟨"b.png"⟩⟩], false⟩⟩]⟩
          :: [⟨[⟨⟨"user-3"⟩, ⟨"page-1"⟩, ⟨"late", [], false⟩⟩]⟩]⟩)).calls
      = [Call.text "page-1" "hi" "tok-1" "user-0",
         Call.text "page-1" "pics" "tok-1" "user-1",
         Call.media "user-1" "v.mp4" "video" "tok-1",
         Call.media "user-1" "https://i.gifer.com/Ifph.gif" "image" "tok-1",
         Call.media "user-1" "a.mp3" "audio" "tok-1",
         Call.text "page-1" "bye" "tok-1" "user-2"]
    ∧ ∃ later dropped,
      (postMessagingWebhook sampleEnv sixthCallRejectedNet
        (.ok ⟨"instagram",
          [⟨[⟨⟨"user-0"⟩, ⟨"page-1"⟩, ⟨"hi", [], false⟩⟩]⟩]
          ++ ⟨[⟨⟨"page-1"⟩, ⟨"user-1"⟩, ⟨"echoed", [], true⟩⟩]
              ++ ⟨⟨"user-1"⟩, ⟨"page-1"⟩,
                  ⟨"pics", [⟨"video", ⟨"v.mp4"⟩⟩] ++ ⟨"image", ⟨""⟩⟩ :: [⟨"audio", ⟨"a.mp3"⟩⟩],
                    false⟩⟩
              :: [⟨⟨"user-2"⟩, ⟨"page-1"⟩, ⟨"bye", [⟨"image", ⟨"b.png"⟩⟩], false⟩⟩]⟩
          :: [⟨[⟨⟨"user-3"⟩, ⟨"page-1"⟩, ⟨"late", [], false⟩⟩]⟩]⟩)).calls
        = callsBefore (sampleEnv "PAGE_ID") (sampleEnv "PAGE_ACCESS_TOKEN")
            [⟨[⟨⟨"user-0"⟩, ⟨"page-1"⟩, ⟨"hi", [], false⟩⟩]⟩]
            [⟨⟨"page-1"⟩, ⟨"user-1"⟩, ⟨"echoed", [], true⟩⟩]
            ⟨"user-1"⟩ "pics" [⟨"video", ⟨"v.mp4"⟩⟩]
          ++ Call.media (Sender.mk "user-1").ID
              (if (Attachment.mk "image" ⟨""⟩).Payload.URL = "" then "https://i.gifer.com/Ifph.gif"
                else (Attachment.mk "image" ⟨""⟩).Payload.URL)
              "image" (sampleEnv "PAGE_ACCESS_TOKEN")
          :: (refAttachmentCalls (Sender.mk "user-1").ID (sampleEnv "PAGE_ACCESS_TOKEN")
                [⟨"audio", ⟨"a.mp3"⟩⟩] ++ later)
      ∧ later ++ dropped
        = refCalls (sampleEnv "PAGE_ID") (sampleEnv "PAGE_ACCESS_TOKEN") ⟨"instagram",
            ⟨[⟨⟨"user-2"⟩, ⟨"page-1"⟩, ⟨"bye", [⟨"image", ⟨"b.png"⟩⟩], false⟩⟩]⟩
            :: [⟨[⟨⟨"user-3"⟩, ⟨"page-1"⟩, ⟨"late", [], false⟩⟩]⟩]⟩ :=
  ⟨by decide, by decide, by decide,
   image_attachment_sent_once sampleEnv sixthCallRejectedNet
     [⟨[⟨⟨"user-0"⟩, ⟨"page-1"⟩, ⟨"hi", [], false⟩⟩]⟩]
     [⟨[⟨⟨"user-3"⟩, ⟨"page-1"⟩, ⟨"late", [], false⟩⟩]⟩]
     [⟨⟨"page-1"⟩, ⟨"user-1"⟩, ⟨"echoed", [], true⟩⟩]
     [⟨⟨"user-2"⟩, ⟨"page-1"⟩, ⟨"bye", [⟨"image", ⟨"b.png"⟩⟩], false⟩⟩]
     ⟨"user-1"⟩ ⟨"page-1"⟩ "pics" [⟨"video", ⟨"v.mp4"⟩⟩] [⟨"audio", ⟨"a.mp3"⟩⟩]
     ⟨"image", ⟨""⟩⟩ (by decide) (by decide)⟩

end Webhook
